import Mathlib

/-!
Verification of the Void Scanner port-scanning tool (src/port_scanner.py)
against its natural-language specification.

The embedding models the scanning engine: speed-to-timeout resolution, the
TCP port classification loop of tcp_scan, the session state (the global
Target and tcp_results), the menu handler for the scan choice, the ping
scan's return value and the save path built from it, and the JSON result
store keyed by the normalized address. The network is abstracted as an
oracle: a function giving, for a target address, a connection timeout and a
port, the outcome of the one blocking connect_ex call the loop makes for
that port.
-/

namespace VoidScanner

/-- Outcome of one TCP connection attempt, as the code observes it:
connect_ex returned an error number (0 means the connection succeeded),
or the attempt raised socket.timeout. -/
inductive ConnOutcome where
  | completed (errno : Nat)
  | timedOut
deriving DecidableEq, Repr

/-- The network oracle: target address, configured timeout, port ↦ outcome of
the connection attempt tcp_scan makes for that port. -/
def ConnOracle : Type := String → ℚ → Nat → ConnOutcome

/-- Speed resolution of tcp_scan (port_scanner.py lines 203-208):
fast ↦ 0.5, slow ↦ 2, anything else ↦ 1. -/
def speedTimeout (speed : String) : ℚ :=
  if speed = "fast" then 1/2
  else if speed = "slow" then 2
  else 1

/-- The classification loop of tcp_scan (lines 218-227): for each port in
order, connect_ex result 0 appends to open_ports, any other result appends to
closed_ports, and socket.timeout appends to filtered_ports. -/
def scanPorts (conn : Nat → ConnOutcome) : List Nat → List Nat × List Nat × List Nat
  | [] => ([], [], [])
  | p :: rest =>
    let r := scanPorts conn rest
    match conn p with
    | .completed 0 => (p :: r.1, r.2.1, r.2.2)
    | .completed _ => (r.1, p :: r.2.1, r.2.2)
    | .timedOut => (r.1, r.2.1, p :: r.2.2)

/-- The three per-scan lists built by tcp_scan (lines 211-213). -/
structure ScanOutput where
  open_ports : List Nat
  closed_ports : List Nat
  filtered_ports : List Nat
deriving DecidableEq, Repr

/-- The results dict tcp_scan stores into the global tcp_results
(lines 237-240): only open_ports and filtered_ports are kept. -/
structure TcpResults where
  open_ports : List Nat
  filtered_ports : List Nat
deriving DecidableEq, Repr

/-- The ports visited by the loop: range(start_port, end_port + 1), with
end_port defaulting to start_port when none was given (lines 200-201). -/
def portList (start_port : Nat) (end_port : Option Nat) : List Nat :=
  List.range' start_port (end_port.getD start_port + 1 - start_port)

/-- tcp_scan (lines 183-243): resolve the default end port and the timeout,
then classify every port of the range by one connection attempt each. -/
def tcp_scan (conn : ConnOracle) (target : String) (start_port : Nat)
    (end_port : Option Nat) (speed : String) : ScanOutput :=
  let r := scanPorts (conn target (speedTimeout speed)) (portList start_port end_port)
  { open_ports := r.1, closed_ports := r.2.1, filtered_ports := r.2.2 }

/-- The dict assigned to the global tcp_results at the end of tcp_scan. -/
def resultsOf (out : ScanOutput) : TcpResults :=
  { open_ports := out.open_ports, filtered_ports := out.filtered_ports }

/-- Whether an outcome lands in open_ports. -/
def isOpenOutcome : ConnOutcome → Bool
  | .completed 0 => true
  | _ => false

/-- Whether an outcome lands in closed_ports. -/
def isClosedOutcome : ConnOutcome → Bool
  | .completed (_ + 1) => true
  | _ => false

/-- Whether an outcome lands in filtered_ports. -/
def isFilteredOutcome : ConnOutcome → Bool
  | .timedOut => true
  | _ => false

/-- The module-level mutable state: the global Target (initially the string
zero) and the global tcp_results dict, where none models the initial (falsy)
empty dict and some r the dict tcp_scan assigns (lines 68-69). -/
structure SessionState where
  Target : String
  tcp_results : Option TcpResults
deriving DecidableEq, Repr

/-- State at program start (lines 68-69). -/
def initialState : SessionState := { Target := "0", tcp_results := none }

/-- Menu choice 1 after a syntactically valid IP was entered (lines 345-354):
the global Target is overwritten; nothing touches tcp_results. -/
def set_target (s : SessionState) (ip : String) : SessionState :=
  { s with Target := ip }

/-- The state change of a tcp_scan call (line 243): the global tcp_results is
overwritten with the new open/filtered dict. -/
def run_tcp_scan (conn : ConnOracle) (s : SessionState) (start_port : Nat)
    (end_port : Option Nat) (speed : String) : SessionState :=
  let r := resultsOf (tcp_scan conn s.Target start_port end_port speed)
  { s with tcp_results := some r }

/-- Python's int() on the strings this menu can receive: defined on non-empty
all-digit strings, a ValueError (none) on anything else. -/
def pyInt (s : List Char) : Option Nat :=
  if s ≠ [] ∧ s.all (fun c => c.isDigit) then
    some (s.foldl (fun n c => n * 10 + (c.toNat - 48)) 0)
  else none

/-- The hyphen character the port input is tested for and split on. -/
def dashChar : Char := '-'

/-- Parsing of the port input of menu choice 3 (lines 377-382): a string with
a hyphen is split and both parts converted by int() and unpacked into exactly
two variables, otherwise the whole string is converted by int(); none models
the uncaught ValueError either conversion or the unpacking can raise. -/
def parse_port_input (s : List Char) : Option (Nat × Option Nat) :=
  if s.contains dashChar then
    match (s.splitOn dashChar).map pyInt with
    | [some a, some b] => some (a, some b)
    | _ => none
  else
    (pyInt s).map (fun a => (a, none))

/-- The recognized speed values (line 385). -/
def validSpeeds : List String := ["fast", "normal", "slow"]

/-- The speed re-prompt loop of menu choice 3 (lines 384-387) over the
successive (already lowercased) strings the user enters: the first recognized
one is used; none models a user who never enters a recognized speed (the
loop keeps prompting). -/
def promptSpeed : List String → Option String
  | [] => none
  | s :: rest => if s ∈ validSpeeds then some s else promptSpeed rest

/-- What a run of menu choice 3 does to the process. -/
inductive MenuOutcome where
  /-- The handler returned, leaving this state. -/
  | ok (s : SessionState)
  /-- An uncaught exception escaped the handler and ends the process. -/
  | crashed
  /-- The handler is still blocked re-prompting (no scan has run). -/
  | blocked
deriving DecidableEq, Repr

/-- Menu choice 3 (lines 375-402): with a target set, read the port input
(a parse failure is an uncaught ValueError that kills the process), re-prompt
for the speed until it is recognized, then run tcp_scan; with no target set,
the handler loops prompting for a target instead (modelled as blocked, since
no scan runs on this path before a target is supplied). -/
def handle_choice3 (conn : ConnOracle) (s : SessionState) (port_input : List Char)
    (speed_inputs : List String) : MenuOutcome :=
  if s.Target ≠ "0" then
    match parse_port_input port_input with
    | none => MenuOutcome.crashed
    | some (start_port, end_port) =>
      match promptSpeed speed_inputs with
      | some speed => MenuOutcome.ok (run_tcp_scan conn s start_port end_port speed)
      | none => MenuOutcome.blocked
  else MenuOutcome.blocked

/-- Python's None, the value every path of ping_scan returns. -/
inductive PyNone where
  | none
deriving DecidableEq, Repr

/-- Python truthiness of None: always false. -/
def truthy : PyNone → Bool
  | PyNone.none => false

/-- Classification printed by ping_scan for a single address (lines 176-179),
with the subprocess abstracted as the oracle alive: whether the ping reply
check of ping_single_ip succeeded for that address. -/
def ping_scan_display (alive : String → Bool) (target : String) : String :=
  if alive target then "active" else "inactive"

/-- The value ping_scan returns to its caller (lines 145-180): the function
only prints and has no return statement, so every call evaluates to None,
whatever the oracle says. -/
def ping_scan (_alive : String → Bool) (_target : String) : PyNone :=
  PyNone.none

/-- The record saved by menu choice 4 (lines 405-416). -/
structure ScanRecord where
  ping_target : String
  ping_status : String
  tcp_scan_data : Option TcpResults
deriving DecidableEq, Repr

/-- The record menu choice 4 builds (lines 407-413): Status is the string
active when the value returned by ping_scan is truthy and inactive otherwise,
and the tcp_scan entry is the cached tcp_results when that dict is truthy and
the no-data marker (none) otherwise. -/
def build_save_record (alive : String → Bool) (target : String)
    (cached : Option TcpResults) : ScanRecord :=
  { ping_target := target,
    ping_status := if truthy (ping_scan alive target) then "active" else "inactive",
    tcp_scan_data := cached }

/-- The liveness verdict menu choice 4 persists for a target. -/
def save_status (alive : String → Bool) (target : String) : String :=
  (build_save_record alive target none).ping_status

/-- Address strings and filenames are modelled as character lists; Python's
single-character str.replace is a character-wise map (line 414, line 287). -/
def normalize_key (address : List Char) : List Char :=
  address.map (fun c => if c = '.' then '_' else c)

/-- The characters of the fixed file extension. -/
def jsonExt : List Char := ['.', 'j', 's', 'o', 'n']

/-- save_results_to_json's filename fixup (lines 258-259): append the
extension unless the filename already ends with it. -/
def ensure_json_ext (filename : List Char) : List Char :=
  if jsonExt.isSuffixOf filename then filename else filename ++ jsonExt

/-- The filename (inside the fixed results directory) that menu choice 4
writes a target's record to (line 414 and lines 258-261). -/
def save_filename (address : List Char) : List Char :=
  ensure_json_ext (normalize_key address)

/-- The filename retrieve_and_print_results reads for a raw address
(line 287). -/
def retrieve_filename (address : List Char) : List Char :=
  normalize_key address ++ jsonExt

/-- The results directory as a key-value store: filename ↦ stored record. -/
def Store : Type := List Char → Option ScanRecord

/-- Writing a record file: overwrites whatever was stored under the same
filename (save_results_to_json, lines 264-266). -/
def store_write (st : Store) (filename : List Char) (rec : ScanRecord) : Store :=
  fun k => if k = filename then some rec else st k

/-- Reading a record file; none when no file exists for the name
(retrieve_and_print_results, lines 290-296). -/
def store_read (st : Store) (filename : List Char) : Option ScanRecord :=
  st filename

/-- save then retrieve for one address: the save of menu choice 4 followed by
the lookup retrieve_and_print_results performs for the same raw address. -/
def save_then_load (st : Store) (address : List Char) (rec : ScanRecord) :
    Option ScanRecord :=
  store_read (store_write st (save_filename address) rec) (retrieve_filename address)

/-- Modelled from the spec's words, for comparison with normalize_key
(the code's own normalization): the spec describes the storage key as the
address with dots and colons replaced by underscores. -/
def normalize_key_specwords (address : List Char) : List Char :=
  address.map (fun c => if c = '.' ∨ c = ':' then '_' else c)

/-- An oracle under which every connection attempt succeeds at once. -/
def connOpen : ConnOracle := fun _ _ _ => ConnOutcome.completed 0

/-- An oracle under which only port 2 accepts and every other attempt
times out. -/
def connPort2 : ConnOracle :=
  fun _ _ p => if p = 2 then ConnOutcome.completed 0 else ConnOutcome.timedOut

/- ### Facts about the classification loop and the port range -/

theorem scanPorts_eq_filter (conn : Nat → ConnOutcome) (l : List Nat) :
    scanPorts conn l =
      (l.filter (fun p => isOpenOutcome (conn p)),
       l.filter (fun p => isClosedOutcome (conn p)),
       l.filter (fun p => isFilteredOutcome (conn p))) := by
  induction l with
  | nil => rfl
  | cons p rest ih =>
    simp only [scanPorts, ih, List.filter_cons]
    rcases h : conn p with e | _
    · rcases e with _ | e <;> simp [isOpenOutcome, isClosedOutcome, isFilteredOutcome]
    · simp [isOpenOutcome, isClosedOutcome, isFilteredOutcome]

theorem count_scanPorts (conn : Nat → ConnOutcome) (l : List Nat) (p : Nat) :
    ((scanPorts conn l).1.count p) + ((scanPorts conn l).2.1.count p)
      + ((scanPorts conn l).2.2.count p) = l.count p := by
  induction l with
  | nil => rfl
  | cons q rest ih =>
    simp only [scanPorts]
    rcases h : conn q with e | _
    · rcases e with _ | e
      · by_cases hq : q = p <;> simp_all [List.count_cons] <;> omega
      · by_cases hq : q = p <;> simp_all [List.count_cons] <;> omega
    · by_cases hq : q = p <;> simp_all [List.count_cons] <;> omega

theorem mem_scanPorts_open (conn : Nat → ConnOutcome) (l : List Nat) (p : Nat) :
    p ∈ (scanPorts conn l).1 ↔ p ∈ l ∧ conn p = .completed 0 := by
  rw [scanPorts_eq_filter]
  simp only [List.mem_filter]
  constructor
  · rintro ⟨hl, ho⟩
    refine ⟨hl, ?_⟩
    rcases h : conn p with e | _
    · rcases e with _ | e
      · rfl
      · rw [h] at ho; simp [isOpenOutcome] at ho
    · rw [h] at ho; simp [isOpenOutcome] at ho
  · rintro ⟨hl, ho⟩
    exact ⟨hl, by rw [ho]; rfl⟩

theorem mem_scanPorts_closed (conn : Nat → ConnOutcome) (l : List Nat) (p : Nat) :
    p ∈ (scanPorts conn l).2.1 ↔ p ∈ l ∧ ∃ e, e ≠ 0 ∧ conn p = .completed e := by
  rw [scanPorts_eq_filter]
  simp only [List.mem_filter]
  constructor
  · rintro ⟨hl, ho⟩
    refine ⟨hl, ?_⟩
    rcases h : conn p with e | _
    · rcases e with _ | e
      · rw [h] at ho; simp [isClosedOutcome] at ho
      · exact ⟨e + 1, by omega, rfl⟩
    · rw [h] at ho; simp [isClosedOutcome] at ho
  · rintro ⟨hl, e, he, ho⟩
    refine ⟨hl, ?_⟩
    rw [ho]
    rcases e with _ | e
    · omega
    · rfl

theorem mem_scanPorts_filtered (conn : Nat → ConnOutcome) (l : List Nat) (p : Nat) :
    p ∈ (scanPorts conn l).2.2 ↔ p ∈ l ∧ conn p = .timedOut := by
  rw [scanPorts_eq_filter]
  simp only [List.mem_filter]
  constructor
  · rintro ⟨hl, ho⟩
    refine ⟨hl, ?_⟩
    rcases h : conn p with e | _
    · rw [h] at ho; simp [isFilteredOutcome] at ho
    · rfl
  · rintro ⟨hl, ho⟩
    exact ⟨hl, by rw [ho]; rfl⟩

theorem mem_portList (start_port : Nat) (e p : Nat) :
    p ∈ portList start_port (some e) ↔ start_port ≤ p ∧ p ≤ e := by
  unfold portList
  rw [List.mem_range'_1]
  simp only [Option.getD_some]
  omega

theorem portList_empty_of_gt (start_port e : Nat) (h : e < start_port) :
    portList start_port (some e) = [] := by
  unfold portList
  simp only [Option.getD_some]
  have : e + 1 - start_port = 0 := by omega
  rw [this]
  rfl

theorem scanPorts_fst_sublist (conn : Nat → ConnOutcome) (l : List Nat) :
    List.Sublist (scanPorts conn l).1 l := by
  rw [scanPorts_eq_filter]
  exact List.filter_sublist l

theorem scanPorts_filtered_sublist (conn : Nat → ConnOutcome) (l : List Nat) :
    List.Sublist (scanPorts conn l).2.2 l := by
  rw [scanPorts_eq_filter]
  exact List.filter_sublist l

theorem portList_sorted (start_port : Nat) (end_port : Option Nat) :
    (portList start_port end_port).Sorted (· < ·) := by
  unfold portList
  exact List.pairwise_lt_range' _ _

/- ### Facts about the filename normalization -/

theorem dot_not_mem_normalize_key (address : List Char) :
    '.' ∉ normalize_key address := by
  unfold normalize_key
  intro h
  rcases List.mem_map.mp h with ⟨c, _, hc⟩
  by_cases hdot : c = '.' <;> simp [hdot] at hc

theorem save_filename_eq (address : List Char) :
    save_filename address = normalize_key address ++ jsonExt := by
  unfold save_filename ensure_json_ext
  have hdot : '.' ∉ normalize_key address := dot_not_mem_normalize_key address
  have hsuf : ¬ (jsonExt.isSuffixOf (normalize_key address) = true) := by
    intro h
    have hsub : jsonExt <:+ normalize_key address := by
      exact (List.isSuffixOf_iff_suffix).mp h
    exact hdot (hsub.subset (by simp [jsonExt]))
  simp [hsuf]

theorem promptSpeed_valid (xs : List String) (s : String)
    (h : promptSpeed xs = some s) : s ∈ validSpeeds := by
  induction xs with
  | nil => exact absurd h (by simp [promptSpeed])
  | cons x rest ih =>
    unfold promptSpeed at h
    by_cases hx : x ∈ validSpeeds
    · rw [if_pos hx] at h
      cases h
      exact hx
    · rw [if_neg hx] at h
      exact ih h

/- ### The claims -/

/-- C1: for every port p in the scanned range, the scan classifies p by
exactly the tri-state rule of tcp_scan's loop: p lands in open_ports exactly
when the connection attempt succeeds (connect_ex returns 0), in closed_ports
exactly when it completes with a non-zero error (no timeout), and in
filtered_ports exactly when the attempt raises socket.timeout. -/
theorem claim_C1_tristate (conn : ConnOracle) (target speed : String)
    (start_port e p : Nat) (h1 : start_port ≤ p) (h2 : p ≤ e) :
    (p ∈ (tcp_scan conn target start_port (some e) speed).open_ports ↔
        conn target (speedTimeout speed) p = .completed 0) ∧
    (p ∈ (tcp_scan conn target start_port (some e) speed).closed_ports ↔
        ∃ er, er ≠ 0 ∧ conn target (speedTimeout speed) p = .completed er) ∧
    (p ∈ (tcp_scan conn target start_port (some e) speed).filtered_ports ↔
        conn target (speedTimeout speed) p = .timedOut) := by
  have hp : p ∈ portList start_port (some e) := (mem_portList start_port e p).mpr ⟨h1, h2⟩
  unfold tcp_scan
  refine ⟨?_, ?_, ?_⟩
  · rw [mem_scanPorts_open]
    exact ⟨fun h => h.2, fun h => ⟨hp, h⟩⟩
  · rw [mem_scanPorts_closed]
    exact ⟨fun h => h.2, fun h => ⟨hp, h⟩⟩
  · rw [mem_scanPorts_filtered]
    exact ⟨fun h => h.2, fun h => ⟨hp, h⟩⟩

/-- Witness for C1 at the range 1-3 under an oracle where only port 2
accepts: port 2 is classified open. -/
theorem claim_C1_tristate_witness :
    2 ∈ (tcp_scan connPort2 "1.2.3.4" 1 (some 3) "fast").open_ports ↔
      connPort2 "1.2.3.4" (speedTimeout "fast") 2 = .completed 0 :=
  (claim_C1_tristate connPort2 "1.2.3.4" "fast" 1 3 2 (by decide) (by decide)).1

/-- C2: for every valid range start ≤ end, the three sequences built by the
scan partition the set of ports start..end exactly: each port of the range
is counted exactly once across open_ports, closed_ports and filtered_ports,
and no port outside the range occurs at all. -/
theorem claim_C2_partition (conn : ConnOracle) (target speed : String)
    (start_port e : Nat) (hle : start_port ≤ e) (p : Nat) :
    ((tcp_scan conn target start_port (some e) speed).open_ports.count p) +
    ((tcp_scan conn target start_port (some e) speed).closed_ports.count p) +
    ((tcp_scan conn target start_port (some e) speed).filtered_ports.count p) =
      if start_port ≤ p ∧ p ≤ e then 1 else 0 := by
  clear hle
  unfold tcp_scan
  have h := count_scanPorts (conn target (speedTimeout speed))
    (portList start_port (some e)) p
  simp only []
  rw [h]
  by_cases hin : start_port ≤ p ∧ p ≤ e
  · rw [if_pos hin]
    exact List.count_eq_one_of_mem (List.nodup_range' _ _)
      ((mem_portList start_port e p).mpr hin)
  · rw [if_neg hin]
    exact List.count_eq_zero_of_not_mem
      (fun hm => hin ((mem_portList start_port e p).mp hm))

/-- Witness for C2 at the range 1-3 under an oracle where only port 2
accepts: port 2 appears exactly once across the three sequences. -/
theorem claim_C2_partition_witness :
    ((tcp_scan connPort2 "1.2.3.4" 1 (some 3) "fast").open_ports.count 2) +
    ((tcp_scan connPort2 "1.2.3.4" 1 (some 3) "fast").closed_ports.count 2) +
    ((tcp_scan connPort2 "1.2.3.4" 1 (some 3) "fast").filtered_ports.count 2) =
      if 1 ≤ 2 ∧ 2 ≤ 3 then 1 else 0 :=
  claim_C2_partition connPort2 "1.2.3.4" "fast" 1 3 (by decide) 2

/-- C3: for every scan over any port range (any oracle, any target, any
speed, end port given or defaulted), the open-port sequence and the
filtered-port sequence are each strictly ascending. -/
theorem claim_C3_sorted (conn : ConnOracle) (target speed : String)
    (start_port : Nat) (end_port : Option Nat) :
    ((tcp_scan conn target start_port end_port speed).open_ports.Sorted (· < ·)) ∧
    ((tcp_scan conn target start_port end_port speed).filtered_ports.Sorted (· < ·)) := by
  unfold tcp_scan
  constructor
  · exact (portList_sorted start_port end_port).sublist
      (scanPorts_fst_sublist (conn target (speedTimeout speed)) _)
  · exact (portList_sorted start_port end_port).sublist
      (scanPorts_filtered_sublist (conn target (speedTimeout speed)) _)

/-- C4: the speed profile resolves to a timeout of 0.5 for fast, 1 for
normal and 2 for slow, so fast is strictly shorter than normal which is
strictly shorter than slow; the speed prompt of the scan menu only ever
yields a recognized speed, and the scan loop only runs once such a speed
was supplied, so a speed outside the three is rejected (re-prompted) before
any connection attempt is made. -/
theorem claim_C4_speed_policy :
    (speedTimeout "fast" = 1/2 ∧ speedTimeout "normal" = 1 ∧ speedTimeout "slow" = 2) ∧
    (speedTimeout "fast" < speedTimeout "normal" ∧
      speedTimeout "normal" < speedTimeout "slow") ∧
    (∀ xs s, promptSpeed xs = some s → s ∈ validSpeeds) ∧
    (∀ conn st port_input xs st',
      handle_choice3 conn st port_input xs = MenuOutcome.ok st' →
      ∃ sp ep speed, speed ∈ validSpeeds ∧ st' = run_tcp_scan conn st sp ep speed) := by
  refine ⟨by simp [speedTimeout], by refine ⟨?_, ?_⟩ <;> simp [speedTimeout] <;> norm_num,
    promptSpeed_valid, ?_⟩
  intro conn st port_input xs st' h
  unfold handle_choice3 at h
  by_cases ht : st.Target ≠ "0"
  · rw [if_pos ht] at h
    rcases hp : parse_port_input port_input with _ | ⟨sp, ep⟩
    · rw [hp] at h
      exact absurd h (by simp)
    · rw [hp] at h
      rcases hs : promptSpeed xs with _ | speed
      · rw [hs] at h
        exact absurd h (by simp)
      · rw [hs] at h
        refine ⟨sp, ep, speed, promptSpeed_valid xs speed hs, ?_⟩
        cases h
        rfl
  · rw [if_neg ht] at h
    exact absurd h (by simp)

/-- Witness for C4: an unrecognized speed entered first is skipped by the
prompt loop and the speed the loop yields is recognized. -/
theorem claim_C4_speed_policy_witness : ("fast" : String) ∈ validSpeeds :=
  claim_C4_speed_policy.2.2.1 ["turbo", "fast"] "fast" (by decide)

/-- C5 counterexample: requesting the range start=100, end=50 is not
rejected as a ValidationError: the menu handler accepts it, the scan runs
to completion, and the cached result is overwritten with an empty result. -/
theorem claim_C5_counterexample :
    handle_choice3 connOpen (set_target initialState "10.0.0.5")
        ("100-50".data) ["normal"] =
      MenuOutcome.ok { Target := "10.0.0.5", tcp_results := some { open_ports := [], filtered_ports := [] } } := by
  decide

/-- C5 amended: a requested range with start > end is not rejected: the scan
visits no port (so no socket activity takes place) and completes, producing
the empty classification. -/
theorem claim_C5_amended (conn : ConnOracle) (target speed : String)
    (start_port e : Nat) (h : e < start_port) :
    portList start_port (some e) = [] ∧
    tcp_scan conn target start_port (some e) speed =
      { open_ports := [], closed_ports := [], filtered_ports := [] } := by
  have hp := portList_empty_of_gt start_port e h
  refine ⟨hp, ?_⟩
  unfold tcp_scan
  rw [hp]
  rfl

/-- Witness for C5 amended at start=100, end=50. -/
theorem claim_C5_amended_witness :
    portList 100 (some 50) = [] ∧
    tcp_scan connOpen "10.0.0.5" 100 (some 50) "normal" =
      { open_ports := [], closed_ports := [], filtered_ports := [] } :=
  claim_C5_amended connOpen "10.0.0.5" "normal" 100 50 (by decide)

/-- C6 counterexample: the code's key normalization does not replace colons
by underscores: for the address consisting of two colons and a one, the key
still contains a colon and differs from the dots-and-colons normalization
the claim describes. -/
theorem claim_C6_counterexample :
    ':' ∈ normalize_key [':', ':', '1'] ∧
    normalize_key [':', ':', '1'] ≠ normalize_key_specwords [':', ':', '1'] := by
  decide

/-- C6 amended: normalization replaces only dots by underscores (colons are
left unchanged); saving a record under an address and then loading with the
same raw address resolves to the same filename and returns the record that
was saved. -/
theorem claim_C6_roundtrip (st : Store) (address : List Char) (rec : ScanRecord) :
    save_then_load st address rec = some rec := by
  unfold save_then_load store_read store_write
  rw [save_filename_eq]
  simp [retrieve_filename]

/-- C7: setting a new target does not discard the cached port-scan result.
After setting target A, scanning ports 1-2 under A (both accept), then
setting target B, the global tcp_results still holds A's scan result. -/
theorem claim_C7_stale_cache :
    (set_target (run_tcp_scan connOpen (set_target initialState "1.2.3.4")
        1 (some 2) "normal") "5.6.7.8").Target = "5.6.7.8" ∧
    (set_target (run_tcp_scan connOpen (set_target initialState "1.2.3.4")
        1 (some 2) "normal") "5.6.7.8").tcp_results =
      some { open_ports := [1, 2], filtered_ports := [] } ∧
    (run_tcp_scan connOpen (set_target initialState "1.2.3.4")
        1 (some 2) "normal").tcp_results =
      some { open_ports := [1, 2], filtered_ports := [] } := by
  decide

/-- C8: the persisted liveness verdict is always the string inactive, even
for a target whose probe reply check succeeds (which ping_scan itself
reports as active): ping_scan returns None, which is never truthy in the
save path's conditional. -/
theorem claim_C8_status_always_inactive :
    ping_scan_display (fun _ => true) "1.2.3.4" = "active" ∧
    save_status (fun _ => true) "1.2.3.4" = "inactive" ∧
    truthy (ping_scan (fun _ => true) "1.2.3.4") = false := by
  decide

/-- C9: a malformed port-range string crashes the process: with a target
set, entering a non-numeric port input makes int() raise an uncaught
ValueError that escapes the menu handler. -/
theorem claim_C9_crash_on_malformed_port :
    handle_choice3 connOpen (set_target initialState "1.2.3.4")
        ("abc".data) ["normal"] = MenuOutcome.crashed := by
  decide

/-- C10: a scan called with start_port greater than end_port visits no port
(zero connection attempts), completes, produces no closed ports, and
overwrites the cached result with empty open and filtered sequences. -/
theorem claim_C10_empty_overwrite (conn : ConnOracle) (s : SessionState)
    (start_port e : Nat) (speed : String) (h : e < start_port) :
    portList start_port (some e) = [] ∧
    (tcp_scan conn s.Target start_port (some e) speed).closed_ports = [] ∧
    (run_tcp_scan conn s start_port (some e) speed).tcp_results =
      some { open_ports := [], filtered_ports := [] } := by
  have hp := portList_empty_of_gt start_port e h
  refine ⟨hp, ?_, ?_⟩
  · unfold tcp_scan
    rw [hp]
    rfl
  · unfold run_tcp_scan resultsOf tcp_scan
    rw [hp]
    rfl

/-- Witness for C10 at start=100, end=50 with an unrecognized speed value. -/
theorem claim_C10_empty_overwrite_witness :
    portList 100 (some 50) = [] ∧
    (tcp_scan connOpen (initialState.Target) 100 (some 50) "turbo").closed_ports = [] ∧
    (run_tcp_scan connOpen initialState 100 (some 50) "turbo").tcp_results =
      some { open_ports := [], filtered_ports := [] } :=
  claim_C10_empty_overwrite connOpen initialState 100 50 "turbo" (by decide)

end VoidScanner
